import Mathlib

/-!
Verification development for the polygon-cli p2p crawler and wire-protocol
client.  Part 1 embeds the crawler's node-update state machine
(`cmd/p2p/crawl/crawl_util.go`); part 2 embeds the message codec and the
connection read loops (`p2p` package).

Times are modelled as integers in nanoseconds (Go `time.Time` /
`time.Duration` are nanosecond counts); `0` plays the role of Go's zero
time (`Time.IsZero`).  Node identities and abstract record payloads are
natural numbers.  Go `int` scores are `Int` with Go's truncating division
written explicitly as `Int.tdiv`.
-/

/-- Nanoseconds per second, for `time.Truncate(1 * time.Second)`. -/
def nsPerSec : Int := 1000000000

/-- Model of `truncNow()` applied to an instant `t`:
`time.Now().UTC().Truncate(1 * time.Second)` rounds the instant down to a
whole second. -/
def truncSec (t : Int) : Int := (Int.tdiv t nsPerSec) * nsPerSec

/-- Model of a `p2p.NodeJSON` record as used by the crawler: the fields read
and written by `updateNode` (`N`, `Seq`, `Score`, `FirstResponse`,
`LastResponse`, `LastCheck`).  The node descriptor `N` is abstracted to a
numeric handle; timestamps are instants with `0` = Go's zero time. -/
structure NodeRecord where
  n : Nat
  seq : Nat
  score : Int
  firstResponse : Int
  lastResponse : Int
  lastCheck : Int
deriving Repr, DecidableEq

/-- The Go zero value of a node record, produced by `node, ok := c.output[id]`
when the identity is absent. -/
def zeroRecord : NodeRecord :=
  { n := 0, seq := 0, score := 0, firstResponse := 0, lastResponse := 0, lastCheck := 0 }

/-- `p2p.NodeSet`: a mapping from peer identity to node record, modelled as an
association list. -/
abbrev NodeSet := List (Nat × NodeRecord)

/-- Map lookup `c.output[id]`. -/
def lookupNode : NodeSet → Nat → Option NodeRecord
  | [], _ => none
  | (k, v) :: rest, id => if k = id then some v else lookupNode rest id

/-- Map store `c.output[id] = node` (replace if present, else add). -/
def insertNode : NodeSet → Nat → NodeRecord → NodeSet
  | [], id, v => [(id, v)]
  | (k, w) :: rest, id, v =>
      if k = id then (id, v) :: rest else (k, w) :: insertNode rest id v

/-- Map delete `delete(c.output, id)`. -/
def eraseNode : NodeSet → Nat → NodeSet
  | [], _ => []
  | (k, w) :: rest, id => if k = id then rest else (k, w) :: eraseNode rest id

/-- The five update outcomes (`nodeRemoved`, `nodeSkipRecent`,
`nodeSkipIncompat`, `nodeAdded`, `nodeUpdated`). -/
inductive Outcome where
  | removed
  | skipRecent
  | skipIncompat
  | added
  | updated
deriving Repr, DecidableEq

/-- Network I/O actions a single `updateNode` call can perform: the
`p2p.Dial`/`conn.Peer()` exchange inside `shouldSkipNode`, and the
`disc.RequestENR` query. -/
inductive Effect where
  | dial
  | requestENR
deriving Repr, DecidableEq

/-- The chain-sync status packet fields consulted by `shouldSkipNode`
(only `status.NetworkID`). -/
structure PeerStatus where
  networkID : Nat
deriving Repr, DecidableEq

/-- The environment a single `updateNode` call runs in: the current instant,
the configured `inputCrawlParams.NetworkID` filter, the result of
`p2p.Dial` + `conn.Peer()` (`none` = dial or peer exchange failed), and the
result of `disc.RequestENR` (`none` = error, `some` = the fresher record's
descriptor handle and sequence number). -/
structure Env where
  now : Int
  networkID : Nat
  dial : Option PeerStatus
  enr : Option (Nat × Nat)
deriving Repr, DecidableEq

/-- `shouldSkipNode(n)`: with no network filter configured
(`NetworkID == 0`) nothing is filtered and no dial happens; otherwise a
failed dial/peer exchange skips the node, and a successful one skips it iff
the declared network id differs from the configured one. -/
def shouldSkipNode (env : Env) : Bool :=
  if env.networkID = 0 then false
  else
    match env.dial with
    | none => true
    | some st => env.networkID ≠ st.networkID

/-- The network I/O performed by `shouldSkipNode`: a dial is attempted
exactly when a network filter is configured. -/
def shouldSkipEffects (env : Env) : List Effect :=
  if env.networkID = 0 then [] else [Effect.dial]

/-- Result of one `updateNode` call: the returned outcome, the new output
set, and the network I/O performed. -/
structure UpdateResult where
  outcome : Outcome
  output : NodeSet
  effects : List Effect

/-- The final store/update step of `updateNode` (under the exclusive lock):
a score ≤ 0 deletes the entry and reports `nodeRemoved`; otherwise the
record is stored and the tentative outcome is reported. -/
def finalizeNode (effects : List Effect) (node : NodeRecord) (status : Outcome)
    (output : NodeSet) (nid : Nat) : UpdateResult :=
  if node.score ≤ 0 then
    { outcome := Outcome.removed, output := eraseNode output nid, effects := effects }
  else
    { outcome := status, output := insertNode output nid node, effects := effects }

/-- `crawler.updateNode(n)` for candidate identity `nid`, with revalidation
interval `interval` and environment `env`, acting on output set `output`:

1. recently-checked known nodes are skipped (`nodeSkipRecent`, no I/O);
2. incompatible/unreachable nodes are skipped (`nodeSkipIncompat`);
3. `LastCheck` is stamped to the truncated now and the Resolver is queried:
   on failure a zero-score node is skipped (`nodeSkipIncompat`) and a
   positive-score node's score is halved (Go truncating division); on
   success the fresher descriptor and sequence number are adopted, the
   score incremented, and `FirstResponse`/`LastResponse` stamped, the
   outcome being `nodeAdded` on a first-ever response and `nodeUpdated`
   otherwise;
4. `finalizeNode` deletes or stores the record. -/
def updateNode (interval : Int) (env : Env) (output : NodeSet) (nid : Nat) :
    UpdateResult :=
  let found := lookupNode output nid
  let node := found.getD zeroRecord
  if found.isSome ∧ env.now - node.lastCheck < interval then
    { outcome := Outcome.skipRecent, output := output, effects := [] }
  else if shouldSkipNode env then
    { outcome := Outcome.skipIncompat, output := output, effects := shouldSkipEffects env }
  else
    let node := { node with lastCheck := truncSec env.now }
    match env.enr with
    | none =>
        if node.score = (0 : Int) then
          { outcome := Outcome.skipIncompat, output := output,
            effects := shouldSkipEffects env ++ [Effect.requestENR] }
        else
          finalizeNode (shouldSkipEffects env ++ [Effect.requestENR])
            { node with score := Int.tdiv node.score 2 } Outcome.updated output nid
    | some (nn, nnSeq) =>
        let node := { node with n := nn, seq := nnSeq, score := node.score + 1 }
        let withFirst :=
          if node.firstResponse = (0 : Int) then
            ({ node with firstResponse := node.lastCheck }, Outcome.added)
          else (node, Outcome.updated)
        let node := { withFirst.1 with lastResponse := withFirst.1.lastCheck }
        finalizeNode (shouldSkipEffects env ++ [Effect.requestENR])
          node withFirst.2 output nid

/-- `newCrawler` seeds the output set by copying the input set verbatim. -/
def seedOutput (input : NodeSet) : NodeSet := input

/-- A crawl run, abstracted to its store mutations: the sequence of
`updateNode` calls the workers perform (each with its environment and
candidate identity), folded over the output set seeded from the input. -/
def runUpdates (interval : Int) (steps : List (Env × Nat)) (input : NodeSet) :
    NodeSet :=
  steps.foldl (fun out step => (updateNode interval step.1 out step.2).output)
    (seedOutput input)

/-!
Part 2: the `p2p` package message codec (`Message`, per-variant `Code` and
`ReqID`), `Conn.Read` and `Conn.ReadSnap`.

Each message variant is modelled as a constructor carrying exactly the
fields its `ReqID` method reads (`RequestId` for the eth66 request/response
packets, `ID` for the snap packets); all other packet fields do not affect
`Code`/`ReqID`/dispatch and are elided.  RLP encoding is external
(go-ethereum's `rlp` package): a frame body is modelled as either the
encoding of a value of one concrete wire shape, or garbage that no shape
decodes; `rlp.DecodeBytes` into a value of shape `s` succeeds exactly on
bodies encoded from shape `s`.
-/

/-- The concrete wire shapes `Conn.Read`/`Conn.ReadSnap` decode into. -/
inductive Shape where
  | hello
  | disconnect
  | disconnects
  | ping
  | pong
  | status
  | newBlockHashes
  | transactions
  | getBlockHeaders
  | blockHeaders
  | getBlockBodies
  | blockBodies
  | newBlock
  | newPooledTransactionHashes66
  | newPooledTransactionHashes
  | getPooledTransactions
  | pooledTransactions
  | getAccountRange
  | accountRange
  | getStorageRanges
  | storageRanges
  | getByteCodes
  | byteCodes
  | getTrieNodes
  | trieNodes
deriving Repr, DecidableEq

/-- The `Message` interface's tagged union: every concrete variant in the
`p2p` package, plus the error-carrying `*Error`.  Request/response packets
carry their `RequestId` (eth66) or `ID` (snap) field. -/
inductive Msg where
  | hello
  | disconnect
  | disconnects
  | ping
  | pong
  | status
  | newBlockHashes
  | transactions
  | getBlockHeaders (requestId : Nat)
  | blockHeaders (requestId : Nat)
  | getBlockBodies (requestId : Nat)
  | blockBodies (requestId : Nat)
  | newBlock
  | newPooledTransactionHashes66
  | newPooledTransactionHashes
  | getPooledTransactions (requestId : Nat)
  | pooledTransactions (requestId : Nat)
  | getAccountRange (id : Nat)
  | accountRange (id : Nat)
  | getStorageRanges (id : Nat)
  | storageRanges (id : Nat)
  | getByteCodes (id : Nat)
  | byteCodes (id : Nat)
  | getTrieNodes (id : Nat)
  | trieNodes (id : Nat)
  | error (s : String)
deriving Repr, DecidableEq

/-- The `Code()` method of each variant, exactly as written in the source
(`*Error` returns the sentinel `-1`). -/
def Msg.code : Msg → Int
  | .hello => 0x00
  | .disconnect => 0x01
  | .disconnects => 0x01
  | .ping => 0x02
  | .pong => 0x03
  | .status => 16
  | .newBlockHashes => 17
  | .transactions => 18
  | .getBlockHeaders _ => 19
  | .blockHeaders _ => 20
  | .getBlockBodies _ => 21
  | .blockBodies _ => 22
  | .newBlock => 23
  | .newPooledTransactionHashes66 => 24
  | .newPooledTransactionHashes => 24
  | .getPooledTransactions _ => 25
  | .pooledTransactions _ => 26
  | .getAccountRange _ => 33
  | .accountRange _ => 34
  | .getStorageRanges _ => 35
  | .storageRanges _ => 36
  | .getByteCodes _ => 37
  | .byteCodes _ => 38
  | .getTrieNodes _ => 39
  | .trieNodes _ => 40
  | .error _ => -1

/-- The `ReqID()` method of each variant, exactly as written in the source.
Note `Transactions.ReqID` returns the literal `18` in the source. -/
def Msg.reqID : Msg → Nat
  | .hello => 0
  | .disconnect => 0
  | .disconnects => 0
  | .ping => 0
  | .pong => 0
  | .status => 0
  | .newBlockHashes => 0
  | .transactions => 18
  | .getBlockHeaders r => r
  | .blockHeaders r => r
  | .getBlockBodies r => r
  | .blockBodies r => r
  | .newBlock => 0
  | .newPooledTransactionHashes66 => 0
  | .newPooledTransactionHashes => 0
  | .getPooledTransactions r => r
  | .pooledTransactions r => r
  | .getAccountRange r => r
  | .accountRange r => r
  | .getStorageRanges r => r
  | .storageRanges r => r
  | .getByteCodes r => r
  | .byteCodes r => r
  | .getTrieNodes r => r
  | .trieNodes r => r
  | .error _ => 0

/-- A frame body: either the RLP encoding of a value of shape `s` (with the
request-id field `r` where the shape has one), or bytes no shape decodes. -/
inductive RawBody where
  | enc (s : Shape) (r : Nat)
  | garbage
deriving Repr, DecidableEq

/-- The message value obtained by decoding a body of shape `s` whose
request-id field is `r`. -/
def mkMsg : Shape → Nat → Msg
  | .hello, _ => .hello
  | .disconnect, _ => .disconnect
  | .disconnects, _ => .disconnects
  | .ping, _ => .ping
  | .pong, _ => .pong
  | .status, _ => .status
  | .newBlockHashes, _ => .newBlockHashes
  | .transactions, _ => .transactions
  | .getBlockHeaders, r => .getBlockHeaders r
  | .blockHeaders, r => .blockHeaders r
  | .getBlockBodies, r => .getBlockBodies r
  | .blockBodies, r => .blockBodies r
  | .newBlock, _ => .newBlock
  | .newPooledTransactionHashes66, _ => .newPooledTransactionHashes66
  | .newPooledTransactionHashes, _ => .newPooledTransactionHashes
  | .getPooledTransactions, r => .getPooledTransactions r
  | .pooledTransactions, r => .pooledTransactions r
  | .getAccountRange, r => .getAccountRange r
  | .accountRange, r => .accountRange r
  | .getStorageRanges, r => .getStorageRanges r
  | .storageRanges, r => .storageRanges r
  | .getByteCodes, r => .getByteCodes r
  | .byteCodes, r => .byteCodes r
  | .getTrieNodes, r => .getTrieNodes r
  | .trieNodes, r => .trieNodes r

/-- `rlp.DecodeBytes(rawData, new(T))` for shape `T` on body `b`: succeeds
exactly when `b` encodes a value of that shape. -/
def decodeShape (s : Shape) (b : RawBody) : Option Msg :=
  match b with
  | .enc s' r => if s = s' then some (mkMsg s r) else none
  | .garbage => none

/-- What `c.Conn.Read()` (the rlpx transport) yields: a transport error, or
a frame with its wire code and body. -/
inductive ReadInput where
  | err
  | frame (code : Int) (body : RawBody)
deriving Repr, DecidableEq

/-- The shared tail of `Conn.Read` (`if msg != nil { ... }`): decode the
body into the chosen shape; failure yields the error-carrying message. -/
def finalDecode (s : Shape) (b : RawBody) : Msg :=
  match decodeShape s b with
  | some m => m
  | none => .error "could not rlp decode message"

/-- `Conn.Read()`: dispatch on the frame's wire code.  Branch order follows
the source switch; `GetBlockHeaders` through `PooledTransactions` decode
inline and return an error message on failure, the remaining recognized
codes select a shape decoded by the shared tail (`finalDecode`).  The
disconnect code first tries the `Disconnects` slice shape and falls back to
the single-reason `Disconnect`; code 24 first tries the typed (eth/68)
`NewPooledTransactionHashes` shape and falls back to the legacy bare-hash
`NewPooledTransactionHashes66` shape.  The default branch builds the
"invalid message code" error message; the source then re-runs
`rlp.DecodeBytes` into that `*Error` value, which returns an error-carrying
message on either outcome (its `Code`/`ReqID` are `-1`/`0` regardless), so
it is modelled as the error message directly. -/
def connRead (input : ReadInput) : Msg :=
  match input with
  | .err => .error "could not read from connection"
  | .frame code body =>
      if code = Msg.hello.code then finalDecode .hello body
      else if code = Msg.ping.code then finalDecode .ping body
      else if code = Msg.pong.code then finalDecode .pong body
      else if code = Msg.disconnect.code then
        -- Because disconnects have different formats, the slice shape is
        -- checked first, then the single-reason shape.
        if (decodeShape .disconnects body).isSome then finalDecode .disconnects body
        else finalDecode .disconnect body
      else if code = Msg.status.code then finalDecode .status body
      else if code = (Msg.getBlockHeaders 0).code then finalDecode .getBlockHeaders body
      else if code = (Msg.blockHeaders 0).code then finalDecode .blockHeaders body
      else if code = (Msg.getBlockBodies 0).code then finalDecode .getBlockBodies body
      else if code = (Msg.blockBodies 0).code then finalDecode .blockBodies body
      else if code = Msg.newBlock.code then finalDecode .newBlock body
      else if code = Msg.newBlockHashes.code then finalDecode .newBlockHashes body
      else if code = Msg.transactions.code then finalDecode .transactions body
      else if code = Msg.newPooledTransactionHashes66.code then
        -- Try decoding to eth68 first.
        match decodeShape .newPooledTransactionHashes body with
        | some m => m
        | none => finalDecode .newPooledTransactionHashes66 body
      else if code = (Msg.getPooledTransactions 0).code then
        finalDecode .getPooledTransactions body
      else if code = (Msg.pooledTransactions 0).code then
        finalDecode .pooledTransactions body
      else .error "invalid message code"

/-- The wire codes `Conn.Read`'s switch recognizes. -/
def RecognizedEthCode (code : Int) : Prop :=
  code = 0 ∨ code = 1 ∨ code = 2 ∨ code = 3 ∨ code = 16 ∨ code = 17 ∨
  code = 18 ∨ code = 19 ∨ code = 20 ∨ code = 21 ∨ code = 22 ∨ code = 23 ∨
  code = 24 ∨ code = 25 ∨ code = 26

instance (code : Int) : Decidable (RecognizedEthCode code) := by
  unfold RecognizedEthCode
  infer_instance

/-- The state-sync (snap/1) shape `Conn.ReadSnap`'s switch selects for a
wire code, `none` for every other code (the `default: continue` branch). -/
def snapShapeOfCode (code : Int) : Option Shape :=
  if code = (Msg.getAccountRange 0).code then some .getAccountRange
  else if code = (Msg.accountRange 0).code then some .accountRange
  else if code = (Msg.getStorageRanges 0).code then some .getStorageRanges
  else if code = (Msg.storageRanges 0).code then some .storageRanges
  else if code = (Msg.getByteCodes 0).code then some .getByteCodes
  else if code = (Msg.byteCodes 0).code then some .byteCodes
  else if code = (Msg.getTrieNodes 0).code then some .getTrieNodes
  else if code = (Msg.trieNodes 0).code then some .trieNodes
  else none

/-- Result of `Conn.ReadSnap`: a returned message, one of its three error
returns, or the model artifact `blocked` for an input stream that runs out
while the loop would keep reading (the real loop would block in
`c.Conn.Read()`). -/
inductive SnapResult where
  | msg (m : Msg)
  | connError
  | decodeError
  | timeoutError
  | blocked
deriving Repr, DecidableEq

/-- The `for respId != id && time.Since(start) < timeout` loop of
`Conn.ReadSnap`.  Each list element pairs the elapsed time observed at the
loop head with what `c.Conn.Read()` then yields; `endElapsed` is the
elapsed time at the loop head after the stream is exhausted.  A transport
error returns immediately; an unrecognized code `continue`s; a recognized
code is decoded, a failure returning immediately and a success returning
the message with no request-id comparison. -/
def readSnapLoop (timeoutD : Int) (id respId : Nat) (endElapsed : Int) :
    List (Int × ReadInput) → SnapResult
  | [] =>
      if respId = id ∨ ¬ endElapsed < timeoutD then .timeoutError else .blocked
  | (t, inp) :: rest =>
      if respId = id ∨ ¬ t < timeoutD then .timeoutError
      else
        match inp with
        | .err => .connError
        | .frame code body =>
            match snapShapeOfCode code with
            | none => readSnapLoop timeoutD id respId endElapsed rest
            | some s =>
                match decodeShape s body with
                | none => .decodeError
                | some m => .msg m

/-- `Conn.ReadSnap(id)`: `respId := id + 1` (uint64 arithmetic), then the
read loop. -/
def readSnap (timeoutD : Int) (id : Nat) (events : List (Int × ReadInput))
    (endElapsed : Int) : SnapResult :=
  readSnapLoop timeoutD id ((id + 1) % 2 ^ 64) endElapsed events

/-! Helper lemmas about the node-set map operations. -/

theorem lookupNode_insertNode (out : NodeSet) (id : Nat) (v : NodeRecord) :
    lookupNode (insertNode out id v) id = some v := by
  induction out with
  | nil => simp [insertNode, lookupNode]
  | cons q rest ih =>
      obtain ⟨k, w⟩ := q
      by_cases h : k = id <;> simp [insertNode, lookupNode, h, ih]

theorem mem_insertNode {out : NodeSet} {id : Nat} {v : NodeRecord}
    {p : Nat × NodeRecord} (hp : p ∈ insertNode out id v) :
    p = (id, v) ∨ p ∈ out := by
  induction out with
  | nil => simpa [insertNode] using hp
  | cons q rest ih =>
      obtain ⟨k, w⟩ := q
      simp only [insertNode] at hp
      split at hp
      · rcases List.mem_cons.mp hp with h1 | h1
        · exact Or.inl h1
        · exact Or.inr (List.mem_cons_of_mem _ h1)
      · rcases List.mem_cons.mp hp with h1 | h1
        · exact Or.inr (by simp [h1])
        · rcases ih h1 with h2 | h2
          · exact Or.inl h2
          · exact Or.inr (List.mem_cons_of_mem _ h2)

theorem mem_eraseNode {out : NodeSet} {id : Nat} {p : Nat × NodeRecord}
    (hp : p ∈ eraseNode out id) : p ∈ out := by
  induction out with
  | nil => simp [eraseNode] at hp
  | cons q rest ih =>
      obtain ⟨k, w⟩ := q
      simp only [eraseNode] at hp
      split at hp
      · exact List.mem_cons_of_mem _ hp
      · rcases List.mem_cons.mp hp with h1 | h1
        · exact List.mem_cons.mpr (Or.inl h1)
        · exact List.mem_cons_of_mem _ (ih h1)

/-! Branch-reduction lemmas for `updateNode`. -/

theorem updateNode_eq_enr_success (interval : Int) (env : Env) (output : NodeSet)
    (nid nn nnSeq : Nat) (prior : NodeRecord)
    (hprior : (lookupNode output nid).getD zeroRecord = prior)
    (hrecent : ¬ ((lookupNode output nid).isSome = true ∧
      env.now - prior.lastCheck < interval))
    (hskip : shouldSkipNode env = false)
    (henr : env.enr = some (nn, nnSeq)) :
    updateNode interval env output nid =
      finalizeNode (shouldSkipEffects env ++ [Effect.requestENR])
        { n := nn, seq := nnSeq, score := prior.score + 1,
          firstResponse := if prior.firstResponse = 0 then truncSec env.now
            else prior.firstResponse,
          lastResponse := truncSec env.now, lastCheck := truncSec env.now }
        (if prior.firstResponse = 0 then Outcome.added else Outcome.updated)
        output nid := by
  by_cases hf : prior.firstResponse = 0 <;>
    simp [updateNode, hprior, hrecent, hskip, henr, hf]

theorem updateNode_eq_enr_fail (interval : Int) (env : Env) (output : NodeSet)
    (nid : Nat) (prior : NodeRecord)
    (hprior : (lookupNode output nid).getD zeroRecord = prior)
    (hrecent : ¬ ((lookupNode output nid).isSome = true ∧
      env.now - prior.lastCheck < interval))
    (hskip : shouldSkipNode env = false)
    (henr : env.enr = none) :
    updateNode interval env output nid =
      if prior.score = 0 then
        { outcome := Outcome.skipIncompat, output := output,
          effects := shouldSkipEffects env ++ [Effect.requestENR] }
      else
        finalizeNode (shouldSkipEffects env ++ [Effect.requestENR])
          { prior with
            lastCheck := truncSec env.now
            score := Int.tdiv prior.score 2 }
          Outcome.updated output nid := by
  by_cases hs : prior.score = 0 <;>
    simp [updateNode, hprior, hrecent, hskip, henr, hs]

/-- C1: for every candidate that passed the recency and compatibility checks
and whose Resolver query succeeds (prior score nonnegative, as the store
invariant guarantees), `updateNode` stores a record whose score is the prior
score plus 1, whose sequence number is the fresher record's, and whose
last-response timestamp is the second-truncated check time; the outcome is
`added` (with first-response stamped to the same check time) exactly when
the prior first-response timestamp was unset, and `updated` otherwise. -/
theorem updateNode_resolver_success_spec (interval : Int) (env : Env)
    (output : NodeSet) (nid nn nnSeq : Nat) (prior : NodeRecord)
    (hprior : (lookupNode output nid).getD zeroRecord = prior)
    (hrecent : ¬ ((lookupNode output nid).isSome = true ∧
      env.now - prior.lastCheck < interval))
    (hskip : shouldSkipNode env = false)
    (henr : env.enr = some (nn, nnSeq))
    (hscore : 0 ≤ prior.score) :
    lookupNode (updateNode interval env output nid).output nid =
      some { n := nn, seq := nnSeq, score := prior.score + 1,
             firstResponse := if prior.firstResponse = 0 then truncSec env.now
               else prior.firstResponse,
             lastResponse := truncSec env.now, lastCheck := truncSec env.now } ∧
    (updateNode interval env output nid).outcome =
      (if prior.firstResponse = 0 then Outcome.added else Outcome.updated) := by
  rw [updateNode_eq_enr_success interval env output nid nn nnSeq prior hprior
    hrecent hskip henr]
  have h1 : ¬ ((prior.score + 1 : Int) ≤ 0) := by omega
  simp [finalizeNode, h1, lookupNode_insertNode]

/-- Witness for C1: an unknown node (zero prior record) whose Resolver query
succeeds is stored with score 1, the fresher sequence number, and
first/last-response stamped to the truncated check time, with outcome
`added`. -/
theorem updateNode_resolver_success_witness :
    lookupNode (updateNode 30000000000 ⟨5000000000, 0, none, some (7, 9)⟩ [] 1).output 1 =
      some { n := 7, seq := 9, score := 1, firstResponse := truncSec 5000000000,
             lastResponse := truncSec 5000000000, lastCheck := truncSec 5000000000 } ∧
    (updateNode 30000000000 ⟨5000000000, 0, none, some (7, 9)⟩ [] 1).outcome =
      Outcome.added := by
  have h := updateNode_resolver_success_spec 30000000000
    ⟨5000000000, 0, none, some (7, 9)⟩ [] 1 7 9 zeroRecord rfl
    (by simp [lookupNode]) rfl rfl (by decide)
  simpa [zeroRecord] using h

/-- C2: for every candidate that passed the recency and compatibility checks
and whose Resolver query fails: a prior score of 0 yields `skipIncompat`
with the output set unchanged; a positive prior score is halved by
truncating division, the entry being deleted with outcome `removed` when
the halved score is ≤ 0 and stored with the earlier tentative outcome
(`updated`) otherwise. -/
theorem updateNode_resolver_fail_spec (interval : Int) (env : Env)
    (output : NodeSet) (nid : Nat) (prior : NodeRecord)
    (hprior : (lookupNode output nid).getD zeroRecord = prior)
    (hrecent : ¬ ((lookupNode output nid).isSome = true ∧
      env.now - prior.lastCheck < interval))
    (hskip : shouldSkipNode env = false)
    (henr : env.enr = none) :
    (prior.score = 0 →
      updateNode interval env output nid =
        { outcome := Outcome.skipIncompat, output := output,
          effects := shouldSkipEffects env ++ [Effect.requestENR] }) ∧
    (0 < prior.score → Int.tdiv prior.score 2 ≤ 0 →
      (updateNode interval env output nid).outcome = Outcome.removed ∧
      (updateNode interval env output nid).output = eraseNode output nid) ∧
    (0 < prior.score → 0 < Int.tdiv prior.score 2 →
      (updateNode interval env output nid).outcome = Outcome.updated ∧
      lookupNode (updateNode interval env output nid).output nid =
        some { prior with
               lastCheck := truncSec env.now
               score := Int.tdiv prior.score 2 }) := by
  rw [updateNode_eq_enr_fail interval env output nid prior hprior hrecent hskip henr]
  refine ⟨fun h0 => by simp [h0], fun hpos hhalf => ?_, fun hpos hhalf => ?_⟩
  · have h0 : ¬ prior.score = 0 := by omega
    simp [h0, finalizeNode, hhalf]
  · have h0 : ¬ prior.score = 0 := by omega
    have h2 : ¬ (Int.tdiv prior.score 2 ≤ 0) := by omega
    simp [h0, finalizeNode, h2, lookupNode_insertNode]

/-- Witness for C2: a known node with score 1 whose Resolver query fails is
halved to score 0 and removed from the output set. -/
theorem updateNode_resolver_fail_witness :
    (updateNode 30000000000 ⟨40000000000, 0, none, none⟩
      [(1, ⟨4, 5, 1, 2000000000, 2000000000, 0⟩)] 1).outcome = Outcome.removed ∧
    (updateNode 30000000000 ⟨40000000000, 0, none, none⟩
      [(1, ⟨4, 5, 1, 2000000000, 2000000000, 0⟩)] 1).output =
      eraseNode [(1, ⟨4, 5, 1, 2000000000, 2000000000, 0⟩)] 1 := by
  have h := updateNode_resolver_fail_spec 30000000000 ⟨40000000000, 0, none, none⟩
    [(1, ⟨4, 5, 1, 2000000000, 2000000000, 0⟩)] 1 ⟨4, 5, 1, 2000000000, 2000000000, 0⟩
    (by decide) (by decide) rfl rfl
  exact h.2.1 (by decide) (by decide)

/-- C3: a candidate already present in the output set whose last-check
timestamp is within the revalidation interval of the current time is
skipped: outcome `skipRecent`, no network I/O at all, output set
unchanged. -/
theorem updateNode_skip_recent_spec (interval : Int) (env : Env)
    (output : NodeSet) (nid : Nat) (prior : NodeRecord)
    (hfound : lookupNode output nid = some prior)
    (hrec : env.now - prior.lastCheck < interval) :
    updateNode interval env output nid =
      { outcome := Outcome.skipRecent, output := output, effects := [] } := by
  simp [updateNode, hfound, hrec]

/-- Witness for C3: a node checked 10 seconds ago with a 30-second
revalidation interval is skipped with no I/O, even though a network filter
is configured and the dial would fail. -/
theorem updateNode_skip_recent_witness :
    updateNode 30000000000 ⟨10000000000, 5, none, none⟩
      [(1, ⟨4, 5, 3, 2000000000, 2000000000, 0⟩)] 1 =
      { outcome := Outcome.skipRecent,
        output := [(1, ⟨4, 5, 3, 2000000000, 2000000000, 0⟩)], effects := [] } :=
  updateNode_skip_recent_spec 30000000000 ⟨10000000000, 5, none, none⟩
    [(1, ⟨4, 5, 3, 2000000000, 2000000000, 0⟩)] 1
    ⟨4, 5, 3, 2000000000, 2000000000, 0⟩ (by decide) (by decide)

/-! Score-positivity preservation. -/

theorem finalizeNode_preserves_pos (effs : List Effect) (node : NodeRecord)
    (status : Outcome) (out : NodeSet) (nid : Nat)
    (hpos : ∀ p ∈ out, 0 < p.2.score) :
    ∀ p ∈ (finalizeNode effs node status out nid).output, 0 < p.2.score := by
  intro p hp
  unfold finalizeNode at hp
  by_cases h : node.score ≤ 0
  · rw [if_pos h] at hp
    exact hpos p (mem_eraseNode hp)
  · rw [if_neg h] at hp
    rcases mem_insertNode hp with h1 | h1
    · subst h1
      simpa using by omega
    · exact hpos p h1

theorem updateNode_preserves_pos (interval : Int) (env : Env) (out : NodeSet)
    (nid : Nat) (hpos : ∀ p ∈ out, 0 < p.2.score) :
    ∀ p ∈ (updateNode interval env out nid).output, 0 < p.2.score := by
  intro p hp
  simp only [updateNode] at hp
  split at hp
  · exact hpos p hp
  · split at hp
    · exact hpos p hp
    · split at hp
      · split at hp
        · exact hpos p hp
        · exact finalizeNode_preserves_pos _ _ _ _ _ hpos p hp
      · exact finalizeNode_preserves_pos _ _ _ _ _ hpos p hp

/-- C4: starting from the output set seeded by copying an input set whose
records all have positive score (the store invariant), every record present
in the output set after any sequence of `updateNode` calls has score > 0:
no operation ever stores or leaves an entry with score ≤ 0. -/
theorem crawl_score_invariant (interval : Int) (steps : List (Env × Nat))
    (input : NodeSet) (hpos : ∀ p ∈ input, 0 < p.2.score) :
    ∀ p ∈ runUpdates interval steps input, 0 < p.2.score := by
  induction steps generalizing input with
  | nil => simpa [runUpdates, seedOutput] using hpos
  | cons st rest ih =>
      have h1 := updateNode_preserves_pos interval st.1 input st.2 hpos
      have h2 := ih ((updateNode interval st.1 input st.2).output) h1
      simpa [runUpdates, seedOutput] using h2

/-- Witness for C4: a crawl of one skip-recent step over a single-node
input set with score 3 leaves that record, with positive score, in the
output set. -/
theorem crawl_score_invariant_witness :
    0 < ((1 : Nat), (⟨4, 5, 3, 0, 0, 0⟩ : NodeRecord)).2.score :=
  crawl_score_invariant 30000000000 [(⟨0, 0, none, some (2, 2)⟩, 1)]
    [(1, ⟨4, 5, 3, 0, 0, 0⟩)] (by decide) (1, ⟨4, 5, 3, 0, 0, 0⟩) (by decide)

/-! Helper lemmas for `Conn.Read`. -/

theorem connRead_unrecognized (code : Int) (body : RawBody)
    (h : ¬ RecognizedEthCode code) :
    connRead (ReadInput.frame code body) = Msg.error "invalid message code" := by
  simp only [RecognizedEthCode, not_or] at h
  obtain ⟨h0, h1, h2, h3, h16, h17, h18, h19, h20, h21, h22, h23, h24, h25, h26⟩ := h
  simp [connRead, Msg.code, h0, h1, h2, h3, h16, h17, h18, h19, h20, h21, h22,
    h23, h24, h25, h26]

theorem connRead_frame_garbage (code : Int) :
    ∃ s, connRead (ReadInput.frame code RawBody.garbage) = Msg.error s := by
  by_cases h : RecognizedEthCode code
  · rcases h with h | h | h | h | h | h | h | h | h | h | h | h | h | h | h <;>
      subst h <;> exact ⟨_, rfl⟩
  · exact ⟨_, connRead_unrecognized code _ h⟩

/-- C5: `Conn.Read` never panics and always yields a value satisfying the
`Message` contract: a frame whose code is unrecognized, or whose body fails
every decode attempt for its recognized code, yields an error-carrying
message whose `Code` is the sentinel `-1` and whose `ReqID` is `0`. -/
theorem connRead_error_contract (code : Int) (body : RawBody)
    (h : ¬ RecognizedEthCode code ∨ body = RawBody.garbage) :
    ∃ s, connRead (ReadInput.frame code body) = Msg.error s ∧
      (connRead (ReadInput.frame code body)).code = -1 ∧
      (connRead (ReadInput.frame code body)).reqID = 0 := by
  rcases h with h | h
  · refine ⟨"invalid message code", connRead_unrecognized code body h, ?_, ?_⟩ <;>
      rw [connRead_unrecognized code body h] <;> rfl
  · subst h
    obtain ⟨s, hs⟩ := connRead_frame_garbage code
    exact ⟨s, hs, by rw [hs]; rfl, by rw [hs]; rfl⟩

/-- Witness for C5: a frame with unrecognized code 99 and one with the
recognized status code 16 but an undecodable body both produce the
error-carrying message with code `-1` and request id `0`. -/
theorem connRead_error_contract_witness :
    (∃ s, connRead (ReadInput.frame 99 RawBody.garbage) = Msg.error s ∧
      (connRead (ReadInput.frame 99 RawBody.garbage)).code = -1 ∧
      (connRead (ReadInput.frame 99 RawBody.garbage)).reqID = 0) ∧
    (∃ s, connRead (ReadInput.frame 16 RawBody.garbage) = Msg.error s ∧
      (connRead (ReadInput.frame 16 RawBody.garbage)).code = -1 ∧
      (connRead (ReadInput.frame 16 RawBody.garbage)).reqID = 0) :=
  ⟨connRead_error_contract 99 RawBody.garbage (Or.inl (by decide)),
   connRead_error_contract 16 RawBody.garbage (Or.inr rfl)⟩

/-- C6 (divergence): the spec says every variant without request/response
correlation has `ReqID` 0; in the code `Transactions.ReqID` returns the
literal `18` (its wire code — an evident slip duplicating the `Code`
method), while every other uncorrelated variant does return 0. -/
theorem transactions_reqID_divergence :
    Msg.transactions.reqID = 18 ∧ ¬ Msg.transactions.reqID = 0 ∧
    Msg.hello.reqID = 0 ∧ Msg.disconnect.reqID = 0 ∧ Msg.disconnects.reqID = 0 ∧
    Msg.ping.reqID = 0 ∧ Msg.pong.reqID = 0 ∧ Msg.status.reqID = 0 ∧
    Msg.newBlockHashes.reqID = 0 ∧ Msg.newBlock.reqID = 0 ∧
    Msg.newPooledTransactionHashes66.reqID = 0 ∧
    Msg.newPooledTransactionHashes.reqID = 0 := by
  decide

/-- C7: the `Code` method of every message variant returns exactly the wire
code of the spec's table. -/
theorem msg_code_table :
    Msg.hello.code = 0x00 ∧ Msg.disconnect.code = 0x01 ∧
    Msg.disconnects.code = 0x01 ∧ Msg.ping.code = 0x02 ∧ Msg.pong.code = 0x03 ∧
    Msg.status.code = 16 ∧ Msg.newBlockHashes.code = 17 ∧
    Msg.transactions.code = 18 ∧ (∀ r, (Msg.getBlockHeaders r).code = 19) ∧
    (∀ r, (Msg.blockHeaders r).code = 20) ∧
    (∀ r, (Msg.getBlockBodies r).code = 21) ∧
    (∀ r, (Msg.blockBodies r).code = 22) ∧ Msg.newBlock.code = 23 ∧
    Msg.newPooledTransactionHashes66.code = 24 ∧
    Msg.newPooledTransactionHashes.code = 24 ∧
    (∀ r, (Msg.getPooledTransactions r).code = 25) ∧
    (∀ r, (Msg.pooledTransactions r).code = 26) ∧
    (∀ r, (Msg.getAccountRange r).code = 33) ∧
    (∀ r, (Msg.accountRange r).code = 34) ∧
    (∀ r, (Msg.getStorageRanges r).code = 35) ∧
    (∀ r, (Msg.storageRanges r).code = 36) ∧
    (∀ r, (Msg.getByteCodes r).code = 37) ∧
    (∀ r, (Msg.byteCodes r).code = 38) ∧
    (∀ r, (Msg.getTrieNodes r).code = 39) ∧
    (∀ r, (Msg.trieNodes r).code = 40) := by
  refine ⟨rfl, rfl, rfl, rfl, rfl, rfl, rfl, rfl, fun r => rfl, fun r => rfl,
    fun r => rfl, fun r => rfl, rfl, rfl, rfl, fun r => rfl, fun r => rfl,
    fun r => rfl, fun r => rfl, fun r => rfl, fun r => rfl, fun r => rfl,
    fun r => rfl, fun r => rfl, fun r => rfl⟩

/-- C8: on a code-24 frame the typed (eth/68) shape is attempted first and
only on its failure the legacy bare-hash-list shape: a legacy-encoded body
fails the typed decode yet is returned as the legacy variant, and a
typed-encoded body is returned as the typed variant. -/
theorem pooled_tx_fallback_spec (r1 r2 : Nat) :
    decodeShape Shape.newPooledTransactionHashes
      (RawBody.enc Shape.newPooledTransactionHashes66 r1) = none ∧
    connRead (ReadInput.frame 24 (RawBody.enc Shape.newPooledTransactionHashes66 r1)) =
      Msg.newPooledTransactionHashes66 ∧
    connRead (ReadInput.frame 24 (RawBody.enc Shape.newPooledTransactionHashes r2)) =
      Msg.newPooledTransactionHashes := by
  refine ⟨rfl, ?_, ?_⟩ <;>
    simp [connRead, Msg.code, decodeShape, finalDecode, mkMsg]

/-- Witness for C8 at concrete bodies. -/
theorem pooled_tx_fallback_witness :
    decodeShape Shape.newPooledTransactionHashes
      (RawBody.enc Shape.newPooledTransactionHashes66 0) = none ∧
    connRead (ReadInput.frame 24 (RawBody.enc Shape.newPooledTransactionHashes66 0)) =
      Msg.newPooledTransactionHashes66 ∧
    connRead (ReadInput.frame 24 (RawBody.enc Shape.newPooledTransactionHashes 0)) =
      Msg.newPooledTransactionHashes :=
  pooled_tx_fallback_spec 0 0

/-- C9: `ReadSnap`'s loop guard `respId != id` is always true (so only the
timeout ends the loop); a frame with an unrecognized code arriving before
the timeout is silently skipped; the first frame carrying a recognized
state-sync code whose body decodes is returned regardless of whether its
request id matches the argument; and once the elapsed time reaches the
timeout the call fails with the timeout error. -/
theorem readSnap_loop_contract (timeoutD : Int) (id : Nat) (endE t : Int)
    (code : Int) (body : RawBody) (rest : List (Int × ReadInput))
    (hid : id < 2 ^ 64) (ht : t < timeoutD) :
    ((id + 1) % 2 ^ 64 ≠ id) ∧
    (snapShapeOfCode code = none →
      readSnap timeoutD id ((t, ReadInput.frame code body) :: rest) endE =
        readSnap timeoutD id rest endE) ∧
    (∀ s r, snapShapeOfCode code = some s → body = RawBody.enc s r →
      readSnap timeoutD id ((t, ReadInput.frame code body) :: rest) endE =
        SnapResult.msg (mkMsg s r)) ∧
    (∀ t' inp, ¬ t' < timeoutD →
      readSnap timeoutD id ((t', inp) :: rest) endE = SnapResult.timeoutError) ∧
    (¬ endE < timeoutD →
      readSnap timeoutD id [] endE = SnapResult.timeoutError) := by
  have h64 : (2 : Nat) ^ 64 = 18446744073709551616 := by norm_num
  have hneq : (id + 1) % 18446744073709551616 ≠ id := by
    rw [h64] at hid
    omega
  refine ⟨by rw [h64]; exact hneq, fun hnone => ?_, fun s r hs hb => ?_,
    fun t' inp hto => ?_, fun hto => ?_⟩
  · simp [readSnap, readSnapLoop, hneq, ht, hnone]
  · subst hb
    simp [readSnap, readSnapLoop, hneq, ht, hs, decodeShape]
  · simp [readSnap, readSnapLoop, hto]
  · simp [readSnap, readSnapLoop, hto]

/-- Witness for C9: a frame with unrecognized code 17 is skipped, then an
account-range frame with request id 9 is returned for a `ReadSnap(5)` call
even though 9 ≠ 5; with the stream exhausted past the timeout the call
times out. -/
theorem readSnap_loop_contract_witness :
    readSnap 60000000000 5
      [(2000000000, ReadInput.frame 34 (RawBody.enc Shape.accountRange 9))] 0 =
      SnapResult.msg (mkMsg Shape.accountRange 9) ∧
    readSnap 60000000000 5
      [(70000000000, ReadInput.frame 34 (RawBody.enc Shape.accountRange 5))] 0 =
      SnapResult.timeoutError := by
  have h1 := readSnap_loop_contract 60000000000 5 0 2000000000 34
    (RawBody.enc Shape.accountRange 9) [] (by norm_num) (by norm_num)
  have h2 := readSnap_loop_contract 60000000000 5 0 2000000000 34
    (RawBody.enc Shape.accountRange 5) [] (by norm_num) (by norm_num)
  exact ⟨h1.2.2.1 Shape.accountRange 9 (by decide) rfl,
    h2.2.2.2.1 70000000000 (ReadInput.frame 34 (RawBody.enc Shape.accountRange 5))
      (by norm_num)⟩

/-- C10: during `ReadSnap`'s wait loop, a frame whose code is a recognized
state-sync code but whose body fails to decode makes the call return the
decode error immediately, for every continuation of the stream — unlike
unrecognized codes (skipped) and unlike `Conn.Read` (which wraps decode
failures in an error-carrying message). -/
theorem readSnap_decode_error_spec (timeoutD : Int) (id : Nat) (endE t : Int)
    (code : Int) (s : Shape) (body : RawBody) (rest : List (Int × ReadInput))
    (hid : id < 2 ^ 64) (ht : t < timeoutD)
    (hs : snapShapeOfCode code = some s) (hd : decodeShape s body = none) :
    readSnap timeoutD id ((t, ReadInput.frame code body) :: rest) endE =
      SnapResult.decodeError := by
  have h64 : (2 : Nat) ^ 64 = 18446744073709551616 := by norm_num
  have hneq : (id + 1) % 18446744073709551616 ≠ id := by
    rw [h64] at hid
    omega
  simp [readSnap, readSnapLoop, hneq, ht, hs, hd]

/-- Witness for C10: an account-range frame with garbage body aborts the
wait with the decode error even though a decodable matching frame follows. -/
theorem readSnap_decode_error_witness :
    readSnap 60000000000 5
      [(1000000000, ReadInput.frame 34 RawBody.garbage),
       (2000000000, ReadInput.frame 34 (RawBody.enc Shape.accountRange 5))] 0 =
      SnapResult.decodeError :=
  readSnap_decode_error_spec 60000000000 5 0 1000000000 34 Shape.accountRange
    RawBody.garbage
    [(2000000000, ReadInput.frame 34 (RawBody.enc Shape.accountRange 5))]
    (by norm_num) (by norm_num) (by decide) rfl
